import Mathlib

/-! Shallow embedding of the QubitSDK React Native facade (src/index.ts).

The facade holds two configuration fields (a tracking identifier that starts
as null and a log level string that starts as WARN) and forwards every
operation to the native module, guarded by a platform probe that compares
Platform.OS against the string ios.  We model the mutable instance by
explicit state passing: each setter returns the updated configuration value
(the source returns this, so the return value and the mutated instance are
the same object; chaining is function composition here).  Every call into
the native module is recorded in a trace list, so a method that performs no
native call produces the empty trace.  An asynchronous result is modelled by
PromiseResult: a promise is either resolved with a value or rejected with an
optional failure value, where a reason of none stands for the bare
Promise.reject() of the source (no error detail) and some e stands for a
rejection carrying exactly the native failure value e.  The settled outcome
of a native asynchronous call is supplied as an Except parameter. -/

/-- Platform tags yielded by the host runtime probe Platform.OS; the source
only distinguishes the string ios from everything else. -/
inductive Platform where
  | ios
  | android
deriving DecidableEq, Repr

/-- Event bodies are arbitrary structured mappings; an association list of
string keys and values represents them. -/
abbrev EventBody := List (String × String)

/-- The best-effort lookup snapshot held by the native layer, likewise an
open-ended mapping. -/
abbrev LookupData := List (String × String)

/-- A failure value raised by the native module during an asynchronous
call; treated as an unstructured value. -/
abbrev NativeError := String

/-- An experience record as returned from the native layer: identifier,
variation metadata (the source spells the parameter constiation), control
flag, payload mapping and callback URL. -/
structure Experience where
  id : Int
  constiation : Int
  isControl : Bool
  payload : List (String × String)
  callback : String
deriving DecidableEq, Repr

/-- One call into the native module NativeModules.QubitSDK, with the
arguments forwarded to it.  A trace of these records what the facade
invoked and in which order. -/
inductive NativeCall where
  | init (trackingId : Option String) (logLevel : String)
  | sendEvent (eventType : String) (eventBody : EventBody)
  | enableTracker (value : Bool)
  | getTrackingId
  | getDeviceId
  | getLookupData
  | getExperiences (experienceIds : List Int) (isconstiationSet : Bool)
      (constiation : Int) (isPreviewSet : Bool) (preview : Bool)
      (isIgnoreSegmentsSet : Bool) (ignoreSegments : Bool)
  | experienceShown (record : Experience)
deriving DecidableEq, Repr

/-- The settled state of a promise: resolved with a value, or rejected with
an optional reason (none models the argumentless Promise.reject of the
source, some e a rejection carrying the native failure value e). -/
inductive PromiseResult (α : Type) where
  | resolved (value : α)
  | rejected (reason : Option NativeError)
deriving DecidableEq, Repr

/-- The settled state of the promise returned by a native asynchronous
call whose outcome is the given Except value: success resolves, failure
rejects with exactly that failure value. -/
def nativeSettle {α : Type} : Except NativeError α → PromiseResult α
  | Except.ok v => PromiseResult.resolved v
  | Except.error e => PromiseResult.rejected (some e)

/-- The configuration state of the facade class QubitSDK: the private
fields with their declared initial values (null tracking id, WARN level). -/
structure QubitSDK where
  _trackingId : Option String
  _logLevel : String
deriving DecidableEq, Repr

/-- The singleton instance exported by the module: new QubitSDK(), holding
the field initializers null and WARN. -/
def QubitSDK.new : QubitSDK :=
  { _trackingId := none, _logLevel := "WARN" }

/-- The six-value log level enumeration accepted by withLogLevel. -/
inductive LogLevel where
  | SILENT
  | ERROR
  | WARN
  | INFO
  | DEBUG
  | VERBOSE
deriving DecidableEq, Repr

/-- The string literal denoted by each log level enumeration value. -/
def LogLevel.str : LogLevel → String
  | LogLevel.SILENT => "SILENT"
  | LogLevel.ERROR => "ERROR"
  | LogLevel.WARN => "WARN"
  | LogLevel.INFO => "INFO"
  | LogLevel.DEBUG => "DEBUG"
  | LogLevel.VERBOSE => "VERBOSE"

/-- withLogLevel: assigns the log level field and returns this.  The body
performs no native call and touches no other field. -/
def QubitSDK.withLogLevel (sdk : QubitSDK) (logLevel : LogLevel) : QubitSDK :=
  { sdk with _logLevel := logLevel.str }

/-- withTrackingId: assigns the tracking id field and returns this.  The
body performs no native call and touches no other field. -/
def QubitSDK.withTrackingId (sdk : QubitSDK) (trackingId : String) : QubitSDK :=
  { sdk with _trackingId := some trackingId }

/-- start: early-returns on ios, otherwise forwards both configuration
fields to NativeModules.QubitSDK.init.  The result is the trace of native
calls issued. -/
def QubitSDK.start (p : Platform) (sdk : QubitSDK) : List NativeCall :=
  if p = Platform.ios then []
  else [NativeCall.init sdk._trackingId sdk._logLevel]

/-- sendEvent: early-returns on ios, otherwise forwards both arguments
verbatim to NativeModules.QubitSDK.sendEvent. -/
def QubitSDK.sendEvent (p : Platform) (eventType : String)
    (eventBody : EventBody) : List NativeCall :=
  if p = Platform.ios then []
  else [NativeCall.sendEvent eventType eventBody]

/-- enable: early-returns on ios, otherwise forwards the boolean to
NativeModules.QubitSDK.enableTracker. -/
def QubitSDK.enable (p : Platform) (value : Bool) : List NativeCall :=
  if p = Platform.ios then []
  else [NativeCall.enableTracker value]

/-- getTrackingId: on ios early-returns Promise.reject() with no native
call; otherwise returns the promise of the native getTrackingId call
directly, so its settled state is the native outcome unmodified. -/
def QubitSDK.getTrackingId (p : Platform)
    (native : Except NativeError String) :
    List NativeCall × PromiseResult String :=
  if p = Platform.ios then ([], PromiseResult.rejected none)
  else ([NativeCall.getTrackingId], nativeSettle native)

/-- getDeviceId: same early-return shape as getTrackingId, forwarding to
the native getDeviceId call. -/
def QubitSDK.getDeviceId (p : Platform)
    (native : Except NativeError String) :
    List NativeCall × PromiseResult String :=
  if p = Platform.ios then ([], PromiseResult.rejected none)
  else ([NativeCall.getDeviceId], nativeSettle native)

/-- getLookupData: same early-return shape, forwarding to the native
getLookupData call. -/
def QubitSDK.getLookupData (p : Platform)
    (native : Except NativeError LookupData) :
    List NativeCall × PromiseResult LookupData :=
  if p = Platform.ios then ([], PromiseResult.rejected none)
  else ([NativeCall.getLookupData], nativeSettle native)

/-- The decorated element the facade resolves with: the spread copy of the
native record ({...e}) together with the record captured by the attached
zero-argument shown closure. -/
structure DecoratedExperience where
  record : Experience
  shownArg : Experience
deriving DecidableEq, Repr

/-- The per-element decoration {...e, shown: () => ...}: the copy carries
the fields of e, and the closure captures the original record e itself. -/
def decorateExperience (e : Experience) : DecoratedExperience :=
  { record := e, shownArg := e }

/-- Invoking the shown capability of a decorated element: it calls
NativeModules.QubitSDK.experienceShown with the captured original record
and awaits nothing, so its whole effect is this one-call trace. -/
def DecoratedExperience.shown (d : DecoratedExperience) : List NativeCall :=
  [NativeCall.experienceShown d.shownArg]

/-- getExperiences: the promise executor calls reject() when the platform
is ios but does not return there, so the native getExperiences call is
issued on every platform and always appears in the trace.  A promise keeps
its first settlement: on ios the synchronous reject() settles the promise
before the native then/catch callbacks can run, so the result is the bare
rejection; otherwise the native outcome settles it, resolving with the
per-element decoration of the returned records or rejecting with the
native failure value passed through catch(reject). -/
def QubitSDK.getExperiences (p : Platform) (experienceIds : List Int)
    (isconstiationSet : Bool) (constiation : Int) (isPreviewSet : Bool)
    (preview : Bool) (isIgnoreSegmentsSet : Bool) (ignoreSegments : Bool)
    (native : Except NativeError (List Experience)) :
    List NativeCall × PromiseResult (List DecoratedExperience) :=
  ([NativeCall.getExperiences experienceIds isconstiationSet constiation
      isPreviewSet preview isIgnoreSegmentsSet ignoreSegments],
   if p = Platform.ios then PromiseResult.rejected none
   else
     match native with
     | Except.ok experiences =>
         PromiseResult.resolved (experiences.map decorateExperience)
     | Except.error e => PromiseResult.rejected (some e))

/-- C1: on the unsupported platform ios, the rejection inside the
getExperiences executor does not stop execution: the native getExperiences
call still appears in the trace for every argument tuple and native
outcome, whereas getTrackingId, getDeviceId and getLookupData early-return
on ios with an empty trace. -/
theorem getExperiences_ios_still_calls_native :
    ∀ (ids : List Int) (b1 : Bool) (v : Int) (b2 b3 b4 b5 : Bool)
      (nx : Except NativeError (List Experience))
      (nt nd : Except NativeError String) (nl : Except NativeError LookupData),
      (QubitSDK.getExperiences Platform.ios ids b1 v b2 b3 b4 b5 nx).1 =
        [NativeCall.getExperiences ids b1 v b2 b3 b4 b5] ∧
      (QubitSDK.getTrackingId Platform.ios nt).1 = [] ∧
      (QubitSDK.getDeviceId Platform.ios nd).1 = [] ∧
      (QubitSDK.getLookupData Platform.ios nl).1 = [] := by
  intro ids b1 v b2 b3 b4 b5 nx nt nd nl
  exact ⟨rfl, rfl, rfl, rfl⟩

/-- C2: on ios, for every argument tuple and every native outcome, the
promise returned by getExperiences settles rejected (with the bare
reasonless rejection), never resolved; in particular at the argument tuple
of the spec example. -/
theorem getExperiences_ios_rejects :
    ∀ (ids : List Int) (b1 : Bool) (v : Int) (b2 b3 b4 b5 : Bool)
      (nx nx0 : Except NativeError (List Experience)),
      (QubitSDK.getExperiences Platform.ios ids b1 v b2 b3 b4 b5 nx).2 =
        PromiseResult.rejected none ∧
      (QubitSDK.getExperiences Platform.ios [] false 0 false false false
          false nx0).2 = PromiseResult.rejected none := by
  intro ids b1 v b2 b3 b4 b5 nx nx0
  exact ⟨rfl, rfl⟩

/-- C3: when the native getExperiences call returns a record sequence, the
facade resolves with its elementwise decoration: same length, same order,
each element carrying the fields of the corresponding native record, and
its zero-argument shown capability forwarding exactly the original
undecorated record to the native experienceShown notification (its whole
effect is that one call, nothing awaited). -/
theorem getExperiences_decorates_each_record :
    ∀ (ids : List Int) (b1 : Bool) (v : Int) (b2 b3 b4 b5 : Bool)
      (exps : List Experience),
      (QubitSDK.getExperiences Platform.android ids b1 v b2 b3 b4 b5
          (Except.ok exps)).2 =
        PromiseResult.resolved (exps.map decorateExperience) ∧
      (exps.map decorateExperience).length = exps.length ∧
      (∀ i : Nat,
        ((exps.map decorateExperience)[i]?).map DecoratedExperience.record =
          exps[i]?) ∧
      (∀ i : Nat,
        ((exps.map decorateExperience)[i]?).map DecoratedExperience.shown =
          (exps[i]?).map (fun e => [NativeCall.experienceShown e])) := by
  intro ids b1 v b2 b3 b4 b5 exps
  refine ⟨rfl, by simp, ?_, ?_⟩
  · intro i
    simp only [List.getElem?_map]
    cases exps[i]? <;> simp [decorateExperience, Function.comp]
  · intro i
    simp only [List.getElem?_map]
    cases exps[i]? <;>
      simp [decorateExperience, DecoratedExperience.shown, Function.comp]

/-- C4: on the supported platform, getExperiences forwards all seven
parameters positionally and unmodified to the native getExperiences
operation, for every argument tuple and in particular at the tuple of the
spec example. -/
theorem getExperiences_forwards_seven_args :
    ∀ (ids : List Int) (b1 : Bool) (v : Int) (b2 b3 b4 b5 : Bool)
      (nx nx0 : Except NativeError (List Experience)),
      (QubitSDK.getExperiences Platform.android ids b1 v b2 b3 b4 b5 nx).1 =
        [NativeCall.getExperiences ids b1 v b2 b3 b4 b5] ∧
      (QubitSDK.getExperiences Platform.android [1, 2] true 5 false false
          true true nx0).1 =
        [NativeCall.getExperiences [1, 2] true 5 false false true true] := by
  intro ids b1 v b2 b3 b4 b5 nx nx0
  exact ⟨rfl, rfl⟩

/-- C5: for each of the six log level enumeration values, withLogLevel
followed by start on the supported platform forwards exactly that value as
the log level argument of the native init call (the six values denote the
six distinct strings listed). -/
theorem withLogLevel_start_forwards_level :
    ∀ (l : LogLevel) (sdk : QubitSDK),
      QubitSDK.start Platform.android (sdk.withLogLevel l) =
        [NativeCall.init sdk._trackingId l.str] ∧
      LogLevel.SILENT.str = "SILENT" ∧ LogLevel.ERROR.str = "ERROR" ∧
      LogLevel.WARN.str = "WARN" ∧ LogLevel.INFO.str = "INFO" ∧
      LogLevel.DEBUG.str = "DEBUG" ∧ LogLevel.VERBOSE.str = "VERBOSE" := by
  intro l sdk
  exact ⟨rfl, rfl, rfl, rfl, rfl, rfl, rfl⟩

/-- C6: withTrackingId("abc") followed by start on the supported platform
issues exactly one native call, init with "abc" and the current log level;
withTrackingId sets only the tracking id field and withLogLevel only the
log level field, each returning the updated instance for chaining and
performing no native call. -/
theorem withTrackingId_start_inits_once :
    ∀ (sdk : QubitSDK),
      QubitSDK.start Platform.android (sdk.withTrackingId "abc") =
        [NativeCall.init (some "abc") sdk._logLevel] ∧
      (sdk.withTrackingId "abc")._trackingId = some "abc" ∧
      (sdk.withTrackingId "abc")._logLevel = sdk._logLevel ∧
      (∀ l : LogLevel,
        (sdk.withLogLevel l)._logLevel = l.str ∧
        (sdk.withLogLevel l)._trackingId = sdk._trackingId) := by
  intro sdk
  exact ⟨rfl, rfl, rfl, fun l => ⟨rfl, rfl⟩⟩

/-- C7: on ios, start, sendEvent and enable perform zero native calls for
every configuration state and every input. -/
theorem ios_sync_ops_no_native_calls :
    ∀ (sdk : QubitSDK) (eventType : String) (eventBody : EventBody)
      (value : Bool),
      QubitSDK.start Platform.ios sdk = [] ∧
      QubitSDK.sendEvent Platform.ios eventType eventBody = [] ∧
      QubitSDK.enable Platform.ios value = [] := by
  intro sdk eventType eventBody value
  exact ⟨rfl, rfl, rfl⟩

/-- C8: on ios, getTrackingId, getDeviceId and getLookupData each perform
no native call and return a promise settled rejected with no error detail
attached, hence never resolved. -/
theorem ios_accessors_reject_without_native_call :
    ∀ (nt nd : Except NativeError String) (nl : Except NativeError LookupData),
      QubitSDK.getTrackingId Platform.ios nt =
        ([], PromiseResult.rejected none) ∧
      QubitSDK.getDeviceId Platform.ios nd =
        ([], PromiseResult.rejected none) ∧
      QubitSDK.getLookupData Platform.ios nl =
        ([], PromiseResult.rejected none) := by
  intro nt nd nl
  exact ⟨rfl, rfl, rfl⟩

/-- C9: on the supported platform, every failure value raised by a native
asynchronous call propagates as the rejection reason of the returned
promise, unmodified: for getExperiences (through catch(reject)) and for
the directly returned promises of getTrackingId, getDeviceId and
getLookupData alike. -/
theorem native_failure_propagates_unmodified :
    ∀ (e : NativeError) (ids : List Int) (b1 : Bool) (v : Int)
      (b2 b3 b4 b5 : Bool),
      (QubitSDK.getExperiences Platform.android ids b1 v b2 b3 b4 b5
          (Except.error e)).2 = PromiseResult.rejected (some e) ∧
      (QubitSDK.getTrackingId Platform.android (Except.error e)).2 =
        PromiseResult.rejected (some e) ∧
      (QubitSDK.getDeviceId Platform.android (Except.error e)).2 =
        PromiseResult.rejected (some e) ∧
      (QubitSDK.getLookupData Platform.android (Except.error e)).2 =
        PromiseResult.rejected (some e) := by
  intro e ids b1 v b2 b3 b4 b5
  exact ⟨rfl, rfl, rfl, rfl⟩

/-- C10: start on the fresh exported instance forwards the null tracking
id and the default WARN level to init; no validation happens in the
facade: any string set through withTrackingId, the empty string included,
is forwarded verbatim. -/
theorem start_forwards_null_and_any_string :
    ∀ (sdk : QubitSDK) (s : String),
      QubitSDK.start Platform.android QubitSDK.new =
        [NativeCall.init none "WARN"] ∧
      QubitSDK.start Platform.android (sdk.withTrackingId s) =
        [NativeCall.init (some s) sdk._logLevel] ∧
      QubitSDK.start Platform.android (QubitSDK.new.withTrackingId "") =
        [NativeCall.init (some "") "WARN"] := by
  intro sdk s
  exact ⟨rfl, rfl, rfl⟩
